import Mathlib

/-!
Verification development for the TenderMY progressive-learning scraper.

The embedded modules:
* `src/src/utils/validation.ts` — field validators, date normalization,
  text cleaning, Levenshtein-based field confidence.
* `src/src/learning/training-manager.ts` — `TrainingDataManager`
  (example store, `calculateAccuracy`) and `ContinuousTrainer`
  (`analyzeFailures`, `generateImprovedPrompt`, `identifyFailurePatterns`).
* `GeminiExtractor` (`parseGeminiResponse`, `validateAndScoreTender`).

JavaScript dynamic values are modelled by `JSVal`; an absent (`undefined`)
value is `Option.none`.  JS numbers are modelled as integers (all numeric
values appearing in the data model are integers) and JS arithmetic on
confidences as exact rationals; `Number.prototype.toFixed(d)` followed by
`parseFloat` is modelled as round-half-up at `d` decimal digits
(`roundTo`), which is the ECMAScript behaviour for the nonnegative values
arising here.
-/

namespace TenderMY

/-- Model of a present JavaScript value (the ones the code distinguishes:
`null`, booleans, numbers, strings).  An absent field / `undefined` is
modelled as `Option.none` around `JSVal`. -/
inductive JSVal where
  | vnull
  | vbool (b : Bool)
  | vnum (n : Int)
  | vstr (s : String)
deriving DecidableEq, Repr

/-- JavaScript `String(x)` / template-literal coercion for the values of
`JSVal` (`undefined` prints as `"undefined"`, `null` as `"null"`). -/
def jsToString : Option JSVal → String
  | none => "undefined"
  | some JSVal.vnull => "null"
  | some (JSVal.vbool true) => "true"
  | some (JSVal.vbool false) => "false"
  | some (JSVal.vnum n) => toString n
  | some (JSVal.vstr s) => s

/-- JavaScript truthiness of a (possibly absent) value. -/
def jsTruthy : Option JSVal → Bool
  | none => false
  | some JSVal.vnull => false
  | some (JSVal.vbool b) => b
  | some (JSVal.vnum n) => decide (n ≠ 0)
  | some (JSVal.vstr s) => decide (s ≠ "")

/-- Model of `parseFloat(x.toFixed(d))`: round half up at `d` decimal
digits (ECMAScript `toFixed` picks the larger candidate on ties, which for
the nonnegative quantities in this code is round half up). -/
def roundTo (d : Nat) (q : ℚ) : ℚ :=
  (⌊q * 10 ^ d + 1 / 2⌋ : ℤ) / (10 ^ d : ℚ)

/-- `normalizeDate` from `src/src/utils/validation.ts`, on the character
list of the input.  All three regexes (`DD/MM/YYYY`, `DD-MM-YYYY`,
`YYYY-MM-DD`) are anchored and match exactly ten characters, tried in the
source's order; the first two rebuild `year-month-day`, the third returns
the input unchanged, otherwise the result is `null` (`none`). -/
def normalizeDateChars : List Char → Option (List Char)
  | [c0, c1, c2, c3, c4, c5, c6, c7, c8, c9] =>
    if c0.isDigit ∧ c1.isDigit ∧ c2 = '/' ∧ c3.isDigit ∧ c4.isDigit ∧
        c5 = '/' ∧ c6.isDigit ∧ c7.isDigit ∧ c8.isDigit ∧ c9.isDigit then
      some [c6, c7, c8, c9, '-', c3, c4, '-', c0, c1]
    else if c0.isDigit ∧ c1.isDigit ∧ c2 = '-' ∧ c3.isDigit ∧ c4.isDigit ∧
        c5 = '-' ∧ c6.isDigit ∧ c7.isDigit ∧ c8.isDigit ∧ c9.isDigit then
      some [c6, c7, c8, c9, '-', c3, c4, '-', c0, c1]
    else if c0.isDigit ∧ c1.isDigit ∧ c2.isDigit ∧ c3.isDigit ∧ c4 = '-' ∧
        c5.isDigit ∧ c6.isDigit ∧ c7 = '-' ∧ c8.isDigit ∧ c9.isDigit then
      some [c0, c1, c2, c3, c4, c5, c6, c7, c8, c9]
    else
      none
  | _ => none

/-- `normalizeDate(dateStr)`: `null` is modelled as `none`. -/
def normalizeDate (s : String) : Option String :=
  (normalizeDateChars s.data).map String.mk

/-- The canonical-form test `/^\d{4}-\d{2}-\d{2}$/` (the third regex of
`normalizeDate`), as a Boolean predicate on strings. -/
def isCanonicalDate (s : String) : Bool :=
  match s.data with
  | [c0, c1, c2, c3, c4, c5, c6, c7, c8, c9] =>
    c0.isDigit && c1.isDigit && c2.isDigit && c3.isDigit && c4 = '-' &&
      c5.isDigit && c6.isDigit && c7 = '-' && c8.isDigit && c9.isDigit
  | _ => false

/-- The whitespace class `\s` of the JS regexes used by `cleanText`
(restricted to its ASCII members, the only ones arising in this data). -/
def isJSWhitespace (c : Char) : Bool :=
  c = ' ' || c = '\t' || c = '\n' || c = '\r' || c = '\x0b' || c = '\x0c'

/-- `String.prototype.trim()`: strip leading and trailing whitespace. -/
def jsTrim (l : List Char) : List Char :=
  ((l.dropWhile isJSWhitespace).reverse.dropWhile isJSWhitespace).reverse

/-- `replace(/\s+/g, ' ')`: each maximal whitespace run becomes one
space.  The flag records whether the previous character was part of a
whitespace run already replaced. -/
def collapseWSAux : Bool → List Char → List Char
  | _, [] => []
  | prevWS, c :: cs =>
    if isJSWhitespace c then
      if prevWS then collapseWSAux true cs
      else ' ' :: collapseWSAux true cs
    else c :: collapseWSAux false cs

/-- `replace(/\r\n/g, ' ')`. -/
def replaceCRLFChars : List Char → List Char
  | [] => []
  | '\r' :: '\n' :: cs => ' ' :: replaceCRLFChars cs
  | c :: cs => c :: replaceCRLFChars cs

/-- `cleanText` from `src/src/utils/validation.ts`: trim, collapse
whitespace runs to a single space, then replace `\r\n` and `\n` by
spaces (the latter two are applied after the collapse, as in the
source, where they are no-ops). -/
def cleanText (s : String) : String :=
  String.mk
    ((replaceCRLFChars (collapseWSAux false (jsTrim s.data))).map
      (fun c => if c = '\n' then ' ' else c))

/-- `isValidKodBidang`: the test `/^\d{6}$/.test(kod)` on the (already
string-coerced) argument — exactly six decimal digits. -/
def isValidKodBidang (kod : String) : Bool :=
  kod.data.length = 6 && kod.data.all Char.isDigit

/-- `isValidStatus`: `['Aktif', 'Tidak Aktif'].includes(status)`.
`Array.prototype.includes` compares with strict equality, so only the two
exact strings pass; the raw (possibly non-string) value is taken to model
the dynamically-typed call site. -/
def isValidStatus (v : Option JSVal) : Bool :=
  v = some (JSVal.vstr "Aktif") || v = some (JSVal.vstr "Tidak Aktif")

/-- `levenshteinDistance` from `src/src/utils/validation.ts`.  The source
fills a DP matrix with `matrix[i][j]` the distance between the first `i`
characters of `b` and the first `j` characters of `a`, with base rows
`matrix[i][0] = i`, `matrix[0][j] = j` and the step
`if b[i-1] = a[j-1] then matrix[i-1][j-1] else 1 + min of the three
neighbours`; this is that recurrence written as structural recursion
(the matrix is its memoization), returning `matrix[b.length][a.length]`. -/
def levenshteinDistance : List Char → List Char → Nat
  | [], b => b.length
  | a, [] => a.length
  | x :: a, y :: b =>
    if x = y then levenshteinDistance a b
    else 1 + min (levenshteinDistance a b)
      (min (levenshteinDistance a (y :: b)) (levenshteinDistance (x :: a) b))
termination_by a b => a.length + b.length

/-- `calculateFieldConfidence` from `src/src/utils/validation.ts`.  Note
the source compares with `=== null` only: an absent (`undefined`) value is
not caught by that check, falls through to `String(...)` coercion and is
compared as the literal string `"undefined"`. -/
def calculateFieldConfidence (extracted validated : Option JSVal) : ℚ :=
  if extracted = some JSVal.vnull ∨ validated = some JSVal.vnull then 0
  else if extracted = validated then 1
  else
    let str1 := (jsToString extracted).toLower
    let str2 := (jsToString validated).toLower
    if str1 = str2 then 1
    else
      max 0 (1 - (levenshteinDistance str1.data str2.data : ℚ) /
        (max str1.data.length str2.data.length : ℚ))

/-- `Tender` from `src/src/types/index.ts` (the ground-truth shape:
all seven fields present; `bil` is a number, the rest strings — the
`'Aktif' | 'Tidak Aktif'` union is a string at runtime). -/
structure Tender where
  bil : Int
  tarikh : String
  daftar : String
  bidang : String
  kod_bidang : String
  keterangan : String
  status : String
deriving DecidableEq, Repr

/-- `Partial<Tender>` (the `tender` of an `ExtractionResult`): each field
may be absent, and — the source being dynamically typed — holds whatever
raw value `validateAndScoreTender` assigned (e.g. `kod_bidang` keeps the
raw value, which a numeric JSON field can make a number). -/
structure PartialTender where
  bil : Option JSVal := none
  tarikh : Option JSVal := none
  daftar : Option JSVal := none
  bidang : Option JSVal := none
  kod_bidang : Option JSVal := none
  keterangan : Option JSVal := none
  status : Option JSVal := none
deriving DecidableEq, Repr

/-- `ExtractionResult` from `src/src/types/index.ts`.  `per_field` is the
`Record<string, number>` in insertion order; `raw_gemini_response` (a
debug echo of the input, `JSON.stringify(data)`) is not modelled — no
code under verification reads it. -/
structure ExtractionResult where
  tender : PartialTender
  confidence_overall : ℚ
  per_field : List (String × ℚ)
  warnings : List String
  errors : List String
deriving DecidableEq, Repr

/-- `TrainingExample` from `src/src/types/index.ts`.  The two `Date`
timestamps (`created_at`, `improved_at`) are not modelled — no logic under
verification reads them. -/
structure TrainingExample where
  id : Nat
  pdf_url : String
  pdf_path : String
  gemini_extraction : ExtractionResult
  manual_validation : Option Tender := none
  confidence_score : ℚ
  is_validated : Bool
  learning_iteration : Int
deriving DecidableEq, Repr

/-- The raw candidate object handed to `validateAndScoreTender`: the
seven properties read off the parsed JSON item (`undefined` when the key
is missing). -/
structure RawTender where
  bil : Option JSVal := none
  tarikh : Option JSVal := none
  daftar : Option JSVal := none
  bidang : Option JSVal := none
  kod_bidang : Option JSVal := none
  keterangan : Option JSVal := none
  status : Option JSVal := none
deriving DecidableEq, Repr

/-- `normalizeDate(data.tarikh || '')` at the `validateAndScoreTender`
call site: a falsy value is replaced by `''`; calling `normalizeDate` on a
truthy non-string throws inside (`dateStr.match` is not a function) and is
caught by its own `try/catch`, yielding `null`. -/
def normalizeDateJS (v : Option JSVal) : Option String :=
  match (if jsTruthy v then v else some (JSVal.vstr "")) with
  | some (JSVal.vstr s) => normalizeDate s
  | _ => none

/-- `typeof v === 'string'`. -/
def isStringVal : Option JSVal → Bool
  | some (JSVal.vstr _) => true
  | _ => false

/-- `typeof data.bil === 'number' && data.bil > 0`. -/
def bilValid (data : RawTender) : Bool :=
  match data.bil with
  | some (JSVal.vnum n) => decide (0 < n)
  | _ => false

/-- `data.daftar && typeof data.daftar === 'string'`. -/
def daftarValid (data : RawTender) : Bool :=
  jsTruthy data.daftar && isStringVal data.daftar

/-- `data.bidang && typeof data.bidang === 'string' && data.bidang.length > 5`. -/
def bidangValid (data : RawTender) : Bool :=
  jsTruthy data.bidang && isStringVal data.bidang &&
    (match data.bidang with
     | some (JSVal.vstr s) => decide (s.data.length > 5)
     | _ => false)

/-- `isValidKodBidang(data.kod_bidang)` — the regex `test` coerces its
argument to a string first. -/
def kodValid (data : RawTender) : Bool :=
  isValidKodBidang (jsToString data.kod_bidang)

/-- `data.keterangan && typeof data.keterangan === 'string' &&
data.keterangan.length > 5`. -/
def ketValid (data : RawTender) : Bool :=
  jsTruthy data.keterangan && isStringVal data.keterangan &&
    (match data.keterangan with
     | some (JSVal.vstr s) => decide (s.data.length > 5)
     | _ => false)

/-- `GeminiExtractor.validateAndScoreTender`.  Per-field validation in
source order (BIL, TARIKH, DAFTAR, BIDANG, KOD BIDANG, KETERANGAN,
STATUS): every branch writes the field's key into the confidence record
(`1`/`0.9`/`0.95` when valid, `0` when invalid or absent) and the invalid
branch pushes an error; the overall confidence is the mean of the record's
values when the record is nonempty, else `0`, then `toFixed(3)`. -/
def validateAndScoreTender (data : RawTender) : ExtractionResult :=
  let normalizedDate : Option String := normalizeDateJS data.tarikh
  let tender : PartialTender :=
    { bil := if bilValid data then data.bil else none
      tarikh := normalizedDate.map (fun d => JSVal.vstr d)
      daftar :=
        if daftarValid data then
          match data.daftar with
          | some (JSVal.vstr s) => some (JSVal.vstr (cleanText s))
          | _ => none
        else none
      bidang :=
        if bidangValid data then
          match data.bidang with
          | some (JSVal.vstr s) => some (JSVal.vstr (cleanText s))
          | _ => none
        else none
      kod_bidang := if kodValid data then data.kod_bidang else none
      keterangan :=
        if ketValid data then
          match data.keterangan with
          | some (JSVal.vstr s) => some (JSVal.vstr (cleanText s))
          | _ => none
        else none
      status := if isValidStatus data.status then data.status else none }
  let perFieldConfidence : List (String × ℚ) :=
    [("bil", if bilValid data then 1 else 0),
     ("tarikh", if normalizedDate.isSome then 1 else 0),
     ("daftar", if daftarValid data then 0.9 else 0),
     ("bidang", if bidangValid data then 0.95 else 0),
     ("kod_bidang", if kodValid data then 1 else 0),
     ("keterangan", if ketValid data then 0.9 else 0),
     ("status", if isValidStatus data.status then 1 else 0)]
  let errors : List String :=
    (if bilValid data then [] else ["Invalid BIL"]) ++
    (if normalizedDate.isSome then []
     else ["Invalid date format: " ++ jsToString data.tarikh]) ++
    (if daftarValid data then [] else ["Missing DAFTAR"]) ++
    (if bidangValid data then [] else ["Invalid BIDANG"]) ++
    (if kodValid data then []
     else ["Invalid KOD BIDANG format: " ++ jsToString data.kod_bidang]) ++
    (if ketValid data then [] else ["Invalid KETERANGAN"]) ++
    (if isValidStatus data.status then []
     else ["Invalid STATUS: " ++ jsToString data.status])
  let confidenceValues : List ℚ := perFieldConfidence.map Prod.snd
  let overallConfidence : ℚ :=
    if confidenceValues.length > 0 then
      confidenceValues.sum / (confidenceValues.length : ℚ)
    else 0
  let warnings : List String :=
    if errors.length > 0 then
      ["Extraction had " ++ toString errors.length ++ " validation errors"]
    else []
  { tender := tender
    confidence_overall := roundTo 3 overallConfidence
    per_field := perFieldConfidence
    warnings := warnings
    errors := errors }

/-- The store state of `TrainingDataManager`: the `examples/` directory
(one JSON file per example, keyed by id).  `nextId` models the freshness
of `uuidv4()` — each saved example gets an id never used before. -/
structure Store where
  examples : List TrainingExample
  nextId : Nat

/-- The empty store produced by `initialize()`. -/
def emptyStore : Store := { examples := [], nextId := 0 }

/-- The example object built by one loop step of
`TrainingDataManager.saveTrainingExample`: unvalidated, no
`manual_validation`, confidence copied from the extraction. -/
def mkExample (id : Nat) (pdfPath pdfUrl : String) (extr : ExtractionResult)
    (iteration : Int) : TrainingExample :=
  { id := id
    pdf_url := pdfUrl
    pdf_path := pdfPath
    gemini_extraction := extr
    manual_validation := none
    confidence_score := extr.confidence_overall
    is_validated := false
    learning_iteration := iteration }

/-- `TrainingDataManager.saveTrainingExample`: writes one new example
file per extraction result, each with a fresh id. -/
def saveTrainingExample (s : Store) (pdfPath pdfUrl : String)
    (extraction : List ExtractionResult) (iteration : Int) : Store :=
  { examples := s.examples ++
      ((List.range extraction.length).zip extraction).map
        (fun p => mkExample (s.nextId + p.1) pdfPath pdfUrl p.2 iteration)
    nextId := s.nextId + extraction.length }

/-- `TrainingDataManager.validateExample`: reads the example file with the
given id, sets `manual_validation` and `is_validated` together and writes
it back.  An unknown id makes the source throw (`fs.readFile` fails)
before any write, so the store is unchanged in that case. -/
def validateExample (s : Store) (exampleId : Nat) (validatedTender : Tender) :
    Store :=
  { s with
    examples := s.examples.map (fun ex =>
      if ex.id = exampleId then
        { ex with
          manual_validation := some validatedTender
          is_validated := true }
      else ex) }

/-- One store mutation of `TrainingDataManager`. -/
inductive StoreOp where
  | save (pdfPath pdfUrl : String) (extraction : List ExtractionResult)
      (iteration : Int)
  | validate (exampleId : Nat) (tender : Tender)

/-- Apply one store operation. -/
def applyOp (s : Store) : StoreOp → Store
  | StoreOp.save pdfPath pdfUrl extraction iteration =>
    saveTrainingExample s pdfPath pdfUrl extraction iteration
  | StoreOp.validate exampleId tender => validateExample s exampleId tender

/-- Run a sequence of store operations from the freshly initialized
store. -/
def runOps (ops : List StoreOp) : Store := ops.foldl applyOp emptyStore

/-- The per-example check of `TrainingDataManager.calculateAccuracy`
(source lines 297–301): strict equality of the extracted `bil`, `tarikh`,
`kod_bidang` and `status` against the manual validation. -/
def fieldsMatch (extracted : PartialTender) (v : Tender) : Bool :=
  decide (extracted.bil = some (JSVal.vnum v.bil)) &&
  decide (extracted.tarikh = some (JSVal.vstr v.tarikh)) &&
  decide (extracted.kod_bidang = some (JSVal.vstr v.kod_bidang)) &&
  decide (extracted.status = some (JSVal.vstr v.status))

/-- One loop step of `calculateAccuracy`: an example contributes to
`correctCount` iff it has a `manual_validation` (otherwise `continue`)
and `fieldsMatch` holds. -/
def isCorrectExample (ex : TrainingExample) : Bool :=
  match ex.manual_validation with
  | none => false
  | some v => fieldsMatch ex.gemini_extraction.tender v

/-- `TrainingDataManager.calculateAccuracy` over the list of validated
examples returned by `getValidatedExamples()`: `0` on the empty list,
otherwise `toFixed(2)` of `correctCount / length * 100`. -/
def calculateAccuracy (validated : List TrainingExample) : ℚ :=
  if validated.length = 0 then 0
  else
    roundTo 2 ((validated.countP isCorrectExample : ℚ) /
      (validated.length : ℚ) * 100)

/-- The `field_mismatches` object built by
`ContinuousTrainer.analyzeFailures`.  The source object literal has keys
`bil`, `kod_bidang`, `status`, `tarikh` and `bidang` only; `keterangan`
is never written there, so reading it downstream yields `undefined`
(falsy), modelled as the constant `false`. -/
structure FieldMismatches where
  bil : Bool
  kod_bidang : Bool
  status : Bool
  tarikh : Bool
  bidang : Bool
  keterangan : Bool
deriving DecidableEq, Repr

/-- The mismatch record `analyzeFailures` attaches to a failing
example. -/
def mismatchesOf (extracted : PartialTender) (v : Tender) : FieldMismatches :=
  { bil := !decide (extracted.bil = some (JSVal.vnum v.bil))
    kod_bidang := !decide (extracted.kod_bidang = some (JSVal.vstr v.kod_bidang))
    status := !decide (extracted.status = some (JSVal.vstr v.status))
    tarikh := !decide (extracted.tarikh = some (JSVal.vstr v.tarikh))
    bidang := !decide (extracted.bidang = some (JSVal.vstr v.bidang))
    keterangan := false }

/-- The gate of `analyzeFailures`: a mismatch on any of `bil`,
`kod_bidang`, `status` puts the example into the failing set. -/
def criticalFieldsMismatch (extracted : PartialTender) (v : Tender) : Bool :=
  !decide (extracted.bil = some (JSVal.vnum v.bil)) ||
  !decide (extracted.kod_bidang = some (JSVal.vstr v.kod_bidang)) ||
  !decide (extracted.status = some (JSVal.vstr v.status))

/-- One entry of the list returned by `analyzeFailures`: the example
spread together with its `field_mismatches`. -/
structure FailureEntry where
  failedExample : TrainingExample
  field_mismatches : FieldMismatches
deriving DecidableEq, Repr

/-- `ContinuousTrainer.analyzeFailures`: keep, in order, the validated
examples that carry a `manual_validation` and mismatch on a critical
field, each paired with its per-field mismatch record. -/
def analyzeFailures (validated : List TrainingExample) : List FailureEntry :=
  validated.filterMap (fun ex =>
    match ex.manual_validation with
    | none => none
    | some v =>
      if criticalFieldsMismatch ex.gemini_extraction.tender v then
        some { failedExample := ex
               field_mismatches := mismatchesOf ex.gemini_extraction.tender v }
      else none)

/-- `Set.prototype.add` followed at the end by `Array.from`: a JS `Set`
iterates in insertion order, so the tag list keeps first-insertion order
with no duplicates. -/
def addTag (tags : List String) (t : String) : List String :=
  if t ∈ tags then tags else tags ++ [t]

/-- The body of the `identifyFailurePatterns` loop for one failure:
`kod_bidang → code_format`, `status → status_format`,
`bidang || keterangan → text_content`, `tarikh → date_format`
(`mismatches.keterangan` is `undefined` on entries built by
`analyzeFailures`, hence the constant `false` there). -/
def applyMismatchTags (patterns : List String) (m : FieldMismatches) :
    List String :=
  let p1 := if m.kod_bidang then addTag patterns "code_format" else patterns
  let p2 := if m.status then addTag p1 "status_format" else p1
  let p3 := if m.bidang || m.keterangan then addTag p2 "text_content" else p2
  if m.tarikh then addTag p3 "date_format" else p3

/-- `ContinuousTrainer.identifyFailurePatterns`. -/
def identifyFailurePatterns (failures : List FailureEntry) : List String :=
  failures.foldl (fun patterns f => applyMismatchTags patterns f.field_mismatches) []

/-- The fixed leading part of the improved prompt
(`ContinuousTrainer.generateImprovedPrompt`, source lines 549–561). -/
def basePromptHeader : String :=
  "Extract tender information from this Malaysian government website screenshot/PDF.\n\nREQUIRED FIELDS (extract exactly as shown):\n1. BIL - Item number (integer, e.g., 1, 2, 3)\n2. TARIKH - Date in DD/MM/YYYY format (e.g., 03/07/2024)\n3. DAFTAR - Registration/Reference code\n4. BIDANG - Category/Field description (FULL TEXT - preserve all details)\n5. KOD BIDANG - Code (exactly 6 digits, e.g., 010302)\n6. KETERANGAN - Description (FULL TEXT - include all details)\n7. STATUS - Status (must be exactly \"Aktif\" or \"Tidak Aktif\")\n\nCRITICAL RULES:\n"

/-- Corrective clause appended for the `code_format` pattern. -/
def codeFormatClause : String :=
  "\n- KOD BIDANG MUST be exactly 6 numeric digits. Verify twice.\n- Do not include spaces, dashes, or special characters in codes."

/-- Corrective clause appended for the `status_format` pattern. -/
def statusFormatClause : String :=
  "\n- STATUS field is critical: Must be EXACTLY \"Aktif\" or \"Tidak Aktif\" (case-sensitive).\n- Do not include extra text, numbers, or symbols."

/-- Corrective clause appended for the `text_content` pattern. -/
def textContentClause : String :=
  "\n- BIDANG and KETERANGAN contain full Malay descriptions.\n- Preserve all text exactly as shown, including all special characters.\n- Do not shorten or modify descriptions."

/-- Corrective clause appended for the `date_format` pattern. -/
def dateFormatClause : String :=
  "\n- TARIKH (date) must be in DD/MM/YYYY format (e.g., 03/07/2024).\n- Convert from any other format if needed."

/-- The fixed output-contract tail of the improved prompt. -/
def outputFormatFooter : String :=
  "\n\nOUTPUT FORMAT:\nReturn ONLY valid JSON array. NO other text.\n[\n  \x7b\n    \"bil\": 1,\n    \"tarikh\": \"03/07/2024\",\n    \"daftar\": \"code\",\n    \"bidang\": \"Full description text\",\n    \"kod_bidang\": \"010302\",\n    \"keterangan\": \"Full description text\",\n    \"status\": \"Aktif\"\n  \x7d\n]\n\nIf NO data found or extraction fails: return []\n"

/-- The successive `+=` chunks of
`ContinuousTrainer.generateImprovedPrompt`: the base instruction set,
then one targeted clause per present failure pattern (checked in the
source's fixed order), then the output-format contract. -/
def generateImprovedPromptPieces (failures : List FailureEntry) : List String :=
  let failurePatterns := identifyFailurePatterns failures
  [basePromptHeader] ++
  (if "code_format" ∈ failurePatterns then [codeFormatClause] else []) ++
  (if "status_format" ∈ failurePatterns then [statusFormatClause] else []) ++
  (if "text_content" ∈ failurePatterns then [textContentClause] else []) ++
  (if "date_format" ∈ failurePatterns then [dateFormatClause] else []) ++
  [outputFormatFooter]

/-- `ContinuousTrainer.generateImprovedPrompt`: the concatenation of the
chunks. -/
def generateImprovedPrompt (failures : List FailureEntry) : String :=
  String.join (generateImprovedPromptPieces failures)

/-- The regex step `responseText.match(/\[[\s\S]*\])/` of
`parseGeminiResponse`: the (greedy) match runs from the first `[` to the
last `]` after it; `none` when there is no such pair. -/
def jsonArraySlice (l : List Char) : Option (List Char) :=
  let rest := l.dropWhile (fun c => c ≠ '[')
  match rest with
  | [] => none
  | _ =>
    let upto := (rest.reverse.dropWhile (fun c => c ≠ ']')).reverse
    match upto with
    | [] => none
    | _ => some upto

/-- Outcome of the platform call `JSON.parse` on the matched slice,
followed by the `Array.isArray` test and per-item property projection.
`JSON.parse` is a platform builtin external to the repository, so it is
modelled as an arbitrary function into this outcome type: it throws
(`failure`), returns a non-array value (`nonArray`), or returns an array
whose items are read as raw tender objects (`array`). -/
inductive JsonParseOutcome where
  | failure
  | nonArray
  | array (items : List RawTender)

/-- `GeminiExtractor.parseGeminiResponse`, parametrized by the platform
JSON parser.  The whole body sits in a `try/catch` whose `catch` returns
`[]`, so the function never throws: no regex match, a parse failure, or a
non-array parse each yield the empty result, and otherwise every item is
scored with `validateAndScoreTender`. -/
def parseGeminiResponse (parse : String → JsonParseOutcome)
    (responseText : String) : List ExtractionResult :=
  match jsonArraySlice responseText.data with
  | none => []
  | some slice =>
    match parse (String.mk slice) with
    | JsonParseOutcome.failure => []
    | JsonParseOutcome.nonArray => []
    | JsonParseOutcome.array items => items.map validateAndScoreTender

/-- The store invariant of the spec: `is_validated` holds exactly when a
`manual_validation` ground truth is attached. -/
def storeInv (s : Store) : Prop :=
  ∀ ex ∈ s.examples, ex.is_validated = true ↔ ex.manual_validation.isSome = true

/-! ### Concrete fixtures (inputs for counterexamples and witnesses) -/

/-- A minimal `ExtractionResult` fixture. -/
def sampleExtraction (t : PartialTender) : ExtractionResult :=
  { tender := t
    confidence_overall := 0
    per_field := []
    warnings := []
    errors := [] }

/-- A ground truth whose `tarikh` differs from the extraction below
while `bil`, `kod_bidang` and `status` agree. -/
def tC1 : Tender :=
  { bil := 1, tarikh := "2024-07-04", daftar := "REF001",
    bidang := "PENERBITAN", kod_bidang := "010302",
    keterangan := "Full description", status := "Aktif" }

/-- Same ground truth but with the matching date. -/
def tW1 : Tender := { tC1 with tarikh := "2024-07-03" }

/-- The extracted record shared by the `tC1`/`tW1` fixtures. -/
def extractedC1 : PartialTender :=
  { bil := some (JSVal.vnum 1), tarikh := some (JSVal.vstr "2024-07-03"),
    daftar := some (JSVal.vstr "REF001"),
    bidang := some (JSVal.vstr "PENERBITAN"),
    kod_bidang := some (JSVal.vstr "010302"),
    keterangan := some (JSVal.vstr "Full description"),
    status := some (JSVal.vstr "Aktif") }

/-- Validated example whose extraction matches the ground truth on
`bil`, `kod_bidang`, `status` but not on `tarikh`. -/
def exC1 : TrainingExample :=
  { id := 0, pdf_url := "http://example/pdf", pdf_path := "p.pdf",
    gemini_extraction := sampleExtraction extractedC1,
    manual_validation := some tC1, confidence_score := 0,
    is_validated := true, learning_iteration := 1 }

/-- Validated example whose extraction matches the ground truth on all
four compared fields. -/
def exW1 : TrainingExample := { exC1 with manual_validation := some tW1 }

/-- Fully matching validated example (for the monotonicity witness). -/
def exC4ok : TrainingExample :=
  { exC1 with id := 40, manual_validation := some tW1 }

/-- Mismatching validated example: extracted `bil` is `2`, ground truth
`bil` is `1`. -/
def exC4bad : TrainingExample :=
  { exC1 with
    id := 41
    gemini_extraction :=
      sampleExtraction { extractedC1 with bil := some (JSVal.vnum 2) }
    manual_validation := some tW1 }

/-- Validated example that mismatches its ground truth **only** on
`bil` (every other field of the extraction equals the ground truth). -/
def exC5 : TrainingExample :=
  { exC1 with
    id := 50
    gemini_extraction :=
      sampleExtraction { extractedC1 with bil := some (JSVal.vnum 2) }
    manual_validation := some tW1 }

/-- A failure entry with no mismatch flag set. -/
def clearFailureEntry : FailureEntry :=
  { failedExample := exW1
    field_mismatches :=
      { bil := false, kod_bidang := false, status := false, tarikh := false,
        bidang := false, keterangan := false } }

/-- A mismatch record flagging only `kod_bidang`. -/
def kodMismatch : FieldMismatches :=
  { bil := false, kod_bidang := true, status := false, tarikh := false,
    bidang := false, keterangan := false }

/-- Two distinct failure sets producing the same failure-pattern tags. -/
def failuresC7a : List FailureEntry :=
  [{ failedExample := exC1, field_mismatches := kodMismatch }]

/-- A second, different failure set with the same tags as `failuresC7a`. -/
def failuresC7b : List FailureEntry :=
  [{ failedExample := exW1, field_mismatches := kodMismatch },
   { failedExample := exC1, field_mismatches := kodMismatch }]

/-- Ground truth used by the store-invariant witness run. -/
def tC3 : Tender :=
  { bil := 3, tarikh := "2024-01-02", daftar := "D", bidang := "BIDANG",
    kod_bidang := "112233", keterangan := "KETERANGAN", status := "Tidak Aktif" }

/-- A save followed by a validation of the saved example. -/
def opsC3 : List StoreOp :=
  [StoreOp.save "p.pdf" "http://u" [sampleExtraction {}] 1,
   StoreOp.validate 0 tC3]

/-- The example resulting from `opsC3`. -/
def exC3res : TrainingExample :=
  { id := 0, pdf_url := "http://u", pdf_path := "p.pdf",
    gemini_extraction := sampleExtraction {},
    manual_validation := some tC3, confidence_score := 0,
    is_validated := true, learning_iteration := 1 }

/-! ### Helper lemmas -/

theorem roundTo_mono (d : Nat) {q r : ℚ} (h : q ≤ r) : roundTo d q ≤ roundTo d r := by
  unfold roundTo
  have hpow : (0 : ℚ) < 10 ^ d := by positivity
  have hfloor : (⌊q * 10 ^ d + 1 / 2⌋ : ℤ) ≤ ⌊r * 10 ^ d + 1 / 2⌋ := by
    apply Int.floor_le_floor
    have := mul_le_mul_of_nonneg_right h (le_of_lt hpow)
    linarith
  exact div_le_div_of_nonneg_right (by exact_mod_cast hfloor) hpow.le

theorem calculateAccuracy_cons (l : List TrainingExample) (hl : l ≠ []) :
    calculateAccuracy l =
      roundTo 2 ((l.countP isCorrectExample : ℚ) / (l.length : ℚ) * 100) := by
  unfold calculateAccuracy
  rw [if_neg]
  simpa using hl

theorem addTag_ne_nil (tags : List String) (t : String) : addTag tags t ≠ [] := by
  unfold addTag
  split
  · rename_i hmem
    exact List.ne_nil_of_mem hmem
  · simp

theorem applyMismatchTags_eq_nil (p : List String) (m : FieldMismatches) :
    applyMismatchTags p m = [] ↔
      p = [] ∧ m.kod_bidang = false ∧ m.status = false ∧ m.bidang = false ∧
        m.keterangan = false ∧ m.tarikh = false := by
  rcases m with ⟨mb, mkod, mst, mta, mbi, mke⟩
  cases mkod <;> cases mst <;> cases mbi <;> cases mke <;> cases mta <;>
    simp [applyMismatchTags, addTag_ne_nil]

theorem foldl_applyMismatchTags_eq_nil (fs : List FailureEntry)
    (acc : List String) :
    fs.foldl (fun p f => applyMismatchTags p f.field_mismatches) acc = [] ↔
      acc = [] ∧ ∀ f ∈ fs, f.field_mismatches.kod_bidang = false ∧
        f.field_mismatches.status = false ∧ f.field_mismatches.bidang = false ∧
        f.field_mismatches.keterangan = false ∧ f.field_mismatches.tarikh = false := by
  induction fs generalizing acc with
  | nil => simp
  | cons f fs ih =>
    rw [List.foldl_cons, ih, applyMismatchTags_eq_nil]
    constructor
    · rintro ⟨⟨h1, h2⟩, h3⟩
      exact ⟨h1, by simpa [h2] using h3⟩
    · rintro ⟨h1, h2⟩
      rw [List.forall_mem_cons] at h2
      exact ⟨⟨h1, h2.1⟩, h2.2⟩

theorem roundTo_eval (d : Nat) (q : ℚ) (z : ℤ) (h : ⌊q * 10 ^ d + 1 / 2⌋ = z) :
    roundTo d q = z / 10 ^ d := by
  unfold roundTo
  rw [h]

theorem calculateAccuracy_singleton (ex : TrainingExample) :
    calculateAccuracy [ex] = if isCorrectExample ex then 100 else 0 := by
  unfold calculateAccuracy
  rw [if_neg (by simp)]
  by_cases hc : isCorrectExample ex = true
  · simp only [List.countP_cons, List.countP_nil, hc, if_pos, List.length_cons,
      List.length_nil, if_true]
    rw [roundTo_eval 2 _ 10000 (by norm_num)]
    norm_num
  · simp only [List.countP_cons, List.countP_nil, hc, if_false, List.length_cons,
      List.length_nil, Bool.false_eq_true]
    rw [roundTo_eval 2 _ 0 (by norm_num)]
    norm_num

theorem isCorrectExample_iff (ex : TrainingExample) (t : Tender)
    (h : ex.manual_validation = some t) :
    isCorrectExample ex = true ↔
      (ex.gemini_extraction.tender.bil = some (JSVal.vnum t.bil) ∧
       ex.gemini_extraction.tender.tarikh = some (JSVal.vstr t.tarikh) ∧
       ex.gemini_extraction.tender.kod_bidang = some (JSVal.vstr t.kod_bidang) ∧
       ex.gemini_extraction.tender.status = some (JSVal.vstr t.status)) := by
  simp [isCorrectExample, h, fieldsMatch, Bool.and_eq_true, decide_eq_true_eq,
    and_assoc]

theorem storeInv_applyOp (s : Store) (hs : storeInv s) (op : StoreOp) :
    storeInv (applyOp s op) := by
  cases op with
  | save pdfPath pdfUrl extraction iteration =>
    intro ex hex
    simp only [applyOp, saveTrainingExample, List.mem_append, List.mem_map] at hex
    rcases hex with hex | ⟨p, _, rfl⟩
    · exact hs ex hex
    · simp [mkExample]
  | validate exampleId tender =>
    intro ex hex
    simp only [applyOp, validateExample, List.mem_map] at hex
    obtain ⟨a, ha, rfl⟩ := hex
    by_cases hid : a.id = exampleId
    · simp [hid]
    · simp only [hid, if_false, if_neg hid]
      exact hs a ha

theorem storeInv_foldl (ops : List StoreOp) (s : Store) (hs : storeInv s) :
    storeInv (ops.foldl applyOp s) := by
  induction ops generalizing s with
  | nil => exact hs
  | cons op ops ih => exact ih _ (storeInv_applyOp s hs op)

theorem validateAndScoreTender_overall (data : RawTender) :
    (validateAndScoreTender data).confidence_overall =
      roundTo 3
        (((if bilValid data then (1 : ℚ) else 0) +
          ((if (normalizeDateJS data.tarikh).isSome then (1 : ℚ) else 0) +
           ((if daftarValid data then (0.9 : ℚ) else 0) +
            ((if bidangValid data then (0.95 : ℚ) else 0) +
             ((if kodValid data then (1 : ℚ) else 0) +
              ((if ketValid data then (0.9 : ℚ) else 0) +
               (if isValidStatus data.status then (1 : ℚ) else 0))))))) / 7) := by
  simp only [validateAndScoreTender, List.map_cons, List.map_nil, List.length_cons,
    List.length_nil, List.sum_cons, List.sum_nil, add_zero]
  norm_num

/-! ### Claim theorems -/

/-- C9: date normalization round-trip — every string already in the
canonical `YYYY-MM-DD` form is returned unchanged, and `"03/07/2024"`
(day/month/year) normalizes to `"2024-07-03"`. -/
theorem normalizeDate_roundtrip :
    (∀ s : String, isCanonicalDate s = true → normalizeDate s = some s) ∧
      normalizeDate "03/07/2024" = some "2024-07-03" := by
  constructor
  · intro s h
    obtain ⟨l⟩ := s
    rcases l with _ | ⟨a0, _ | ⟨a1, _ | ⟨a2, _ | ⟨a3, _ | ⟨a4, _ | ⟨a5,
      _ | ⟨a6, _ | ⟨a7, _ | ⟨a8, _ | ⟨a9, _ | ⟨a10, rest⟩⟩⟩⟩⟩⟩⟩⟩⟩⟩⟩ <;>
      simp only [isCanonicalDate, Bool.and_eq_true, decide_eq_true_eq,
        Bool.false_eq_true] at h
    obtain ⟨⟨⟨⟨⟨⟨⟨⟨⟨h0, h1⟩, h2⟩, h3⟩, h4⟩, h5⟩, h6⟩, h7⟩, h8⟩, h9⟩ := h
    have hc2slash : ¬(a2 = '/') := fun e => by
      rw [e] at h2; exact absurd h2 (by decide)
    have hc2dash : ¬(a2 = '-') := fun e => by
      rw [e] at h2; exact absurd h2 (by decide)
    simp only [normalizeDate, normalizeDateChars]
    rw [if_neg (fun hcond => hc2slash hcond.2.2.1),
      if_neg (fun hcond => hc2dash hcond.2.2.1),
      if_pos ⟨h0, h1, h2, h3, h4, h5, h6, h7, h8, h9⟩]
    rfl
  · decide

/-- C6 (amended): `calculateFieldConfidence` returns `1` on strictly
equal non-`null` values; returns `0` when either value is JavaScript
`null`; an absent (`undefined`) value is **not** mapped to `0` — it is
compared as the coerced string (two absent values give `1`); and on text
values the result is a normalized edit-distance similarity in `[0, 1]`. -/
theorem calculateFieldConfidence_spec :
    (∀ e v : Option JSVal, e ≠ some JSVal.vnull → v ≠ some JSVal.vnull →
        e = v → calculateFieldConfidence e v = 1) ∧
    (∀ v : Option JSVal, calculateFieldConfidence (some JSVal.vnull) v = 0 ∧
        calculateFieldConfidence v (some JSVal.vnull) = 0) ∧
    (∀ s t : String,
        0 ≤ calculateFieldConfidence (some (JSVal.vstr s)) (some (JSVal.vstr t)) ∧
        calculateFieldConfidence (some (JSVal.vstr s)) (some (JSVal.vstr t)) ≤ 1) := by
  refine ⟨?_, ?_, ?_⟩
  · intro e v he hv hev
    subst hev
    simp [calculateFieldConfidence, he]
  · intro v
    constructor <;> simp [calculateFieldConfidence]
  · intro s t
    simp only [calculateFieldConfidence]
    split_ifs with h1 h2 h3
    · norm_num
    · norm_num
    · norm_num
    · exact ⟨le_max_left _ _,
        max_le (by norm_num)
          (sub_le_self 1 (div_nonneg (by positivity) (by positivity)))⟩

/-- C6 witness: the main theorem applied at a concrete exact match. -/
theorem calculateFieldConfidence_spec_witness :
    calculateFieldConfidence (some (JSVal.vstr "Aktif"))
      (some (JSVal.vstr "Aktif")) = 1 :=
  calculateFieldConfidence_spec.1 _ _ (by decide) (by decide) rfl

/-- C6 counterexample: the claim demands `0` whenever either value is
absent/missing, but two absent (`undefined`) values compare strictly
equal and yield `1` — the source only checks `=== null`. -/
theorem calculateFieldConfidence_absent_not_zero :
    calculateFieldConfidence none none = 1 ∧
      calculateFieldConfidence none none ≠ 0 := by
  constructor <;> decide

/-- C10: on every raw candidate, `validateAndScoreTender` produces a
per-field confidence map with exactly the seven tender fields in source
order (invalid/absent fields included with score `0`), so the overall
confidence is always the 3-decimal-rounded mean over exactly seven
values and the empty-map fallback branch is unreachable. -/
theorem validateAndScoreTender_sevenFields (data : RawTender) :
    (validateAndScoreTender data).per_field.map Prod.fst =
        ["bil", "tarikh", "daftar", "bidang", "kod_bidang", "keterangan",
          "status"] ∧
    (validateAndScoreTender data).per_field.length = 7 ∧
    (validateAndScoreTender data).confidence_overall =
        roundTo 3 (((validateAndScoreTender data).per_field.map Prod.snd).sum / 7) := by
  refine ⟨rfl, rfl, ?_⟩
  simp only [validateAndScoreTender]
  norm_num

/-- The Scenario A candidate record of the spec: sequence number `1`,
date `03/07/2024`, code `010302`, status `Aktif`, category text
`PENERBITAN DAN PENYIARAN`, description longer than ten characters (and
no `daftar` reference, which Scenario A does not list). -/
def scenarioA : RawTender :=
  { bil := some (JSVal.vnum 1)
    tarikh := some (JSVal.vstr "03/07/2024")
    daftar := none
    bidang := some (JSVal.vstr "PENERBITAN DAN PENYIARAN")
    kod_bidang := some (JSVal.vstr "010302")
    keterangan := some (JSVal.vstr "A full description over ten chars")
    status := some (JSVal.vstr "Aktif") }

/-- C2 counterexample: Scenario A does not produce overall confidence
`1.0` with zero errors.  (No input can reach confidence `1.0`: `daftar`,
`bidang`, `keterangan` are capped at `0.9`/`0.95`/`0.9`.) -/
theorem scenarioA_not_confidence_one :
    ¬ ((validateAndScoreTender scenarioA).confidence_overall = 1 ∧
       (validateAndScoreTender scenarioA).errors = []) := by
  rintro ⟨-, herr⟩
  have : (validateAndScoreTender scenarioA).errors = ["Missing DAFTAR"] := by
    decide
  rw [this] at herr
  exact absurd herr (by decide)

/-- C2 (amended): on the Scenario A record the scorer returns overall
confidence `0.836` and the single error `"Missing DAFTAR"` (the absent
`daftar` field scores `0`; the remaining six fields validate at
`1`/`1`/`0.95`/`1`/`0.9`/`1`). -/
theorem scenarioA_result :
    (validateAndScoreTender scenarioA).confidence_overall = 0.836 ∧
    (validateAndScoreTender scenarioA).errors = ["Missing DAFTAR"] := by
  constructor
  · rw [validateAndScoreTender_overall]
    have hb : bilValid scenarioA = true := by decide
    have ht : (normalizeDateJS scenarioA.tarikh).isSome = true := by decide
    have hd : daftarValid scenarioA = false := by decide
    have hbi : bidangValid scenarioA = true := by decide
    have hk : kodValid scenarioA = true := by decide
    have hke : ketValid scenarioA = true := by decide
    have hs : isValidStatus scenarioA.status = true := by decide
    rw [hb, ht, hd, hbi, hk, hke, hs]
    rw [show ((if (true : Bool) = true then (1 : ℚ) else 0) +
        ((if (true : Bool) = true then (1 : ℚ) else 0) +
         ((if (false : Bool) = true then (0.9 : ℚ) else 0) +
          ((if (true : Bool) = true then (0.95 : ℚ) else 0) +
           ((if (true : Bool) = true then (1 : ℚ) else 0) +
            ((if (true : Bool) = true then (0.9 : ℚ) else 0) +
             (if (true : Bool) = true then (1 : ℚ) else 0))))))) / 7 =
        (117 / 140 : ℚ) from by norm_num]
    rw [roundTo_eval 3 _ 836 (by norm_num)]
    norm_num
  · decide

/-- C9 witness: the round-trip theorem applied to the concrete canonical
string `"2024-07-03"`. -/
theorem normalizeDate_roundtrip_witness :
    isCanonicalDate "2024-07-03" = true ∧
      normalizeDate "2024-07-03" = some "2024-07-03" :=
  ⟨by decide, normalizeDate_roundtrip.1 "2024-07-03" (by decide)⟩

/-- C1 counterexample: `exC1` matches its ground truth on all three
fields the claim calls critical (`bil`, `kod_bidang`, `status`), yet
`calculateAccuracy` counts it wrong — the source also compares `tarikh`,
which differs here — so the accuracy over `[exC1]` is `0`, not `100`. -/
theorem calculateAccuracy_uses_tarikh :
    exC1.gemini_extraction.tender.bil = some (JSVal.vnum tC1.bil) ∧
    exC1.gemini_extraction.tender.kod_bidang = some (JSVal.vstr tC1.kod_bidang) ∧
    exC1.gemini_extraction.tender.status = some (JSVal.vstr tC1.status) ∧
    exC1.manual_validation = some tC1 ∧
    calculateAccuracy [exC1] = 0 := by
  refine ⟨by decide, by decide, by decide, by decide, ?_⟩
  rw [calculateAccuracy_singleton]
  have h : isCorrectExample exC1 = false := by decide
  rw [h]
  norm_num

/-- C1 (amended): `calculateAccuracy` counts a validated example as
correct iff each of **four** fields of its extracted record — `bil`,
`tarikh`, `kod_bidang` and `status` — exactly equals the attached ground
truth; in particular the date field `tarikh` **does** influence
correctness (while `daftar`, `bidang`, `keterangan` do not). -/
theorem calculateAccuracy_correct_iff (ex : TrainingExample) (t : Tender)
    (h : ex.manual_validation = some t) :
    calculateAccuracy [ex] = 100 ↔
      (ex.gemini_extraction.tender.bil = some (JSVal.vnum t.bil) ∧
       ex.gemini_extraction.tender.tarikh = some (JSVal.vstr t.tarikh) ∧
       ex.gemini_extraction.tender.kod_bidang = some (JSVal.vstr t.kod_bidang) ∧
       ex.gemini_extraction.tender.status = some (JSVal.vstr t.status)) := by
  rw [calculateAccuracy_singleton, ← isCorrectExample_iff ex t h]
  by_cases hc : isCorrectExample ex = true
  · simp [hc]
  · simp only [hc, Bool.false_eq_true, if_false, iff_false]
    norm_num

/-- C1 witness: the amended theorem applied to the concrete fully
matching example `exW1`. -/
theorem calculateAccuracy_correct_iff_witness :
    calculateAccuracy [exW1] = 100 :=
  (calculateAccuracy_correct_iff exW1 tW1 (by decide)).mpr
    ⟨by decide, by decide, by decide, by decide⟩

/-- C3: after any sequence of store operations from the initialized
store, every stored example satisfies `is_validated = true` iff a
`manual_validation` ground truth is attached: `saveTrainingExample`
creates examples with `is_validated = false` and no ground truth, and
`validateExample` sets both together. -/
theorem store_validated_iff_ground_truth (ops : List StoreOp)
    (ex : TrainingExample) (hex : ex ∈ (runOps ops).examples) :
    ex.is_validated = true ↔ ex.manual_validation.isSome = true := by
  refine storeInv_foldl ops emptyStore ?_ ex hex
  intro e he
  simp [emptyStore] at he

/-- C3 witness: the invariant theorem applied to the example produced by
a concrete save-then-validate run. -/
theorem store_validated_iff_ground_truth_witness :
    exC3res ∈ (runOps opsC3).examples ∧
      (exC3res.is_validated = true ↔ exC3res.manual_validation.isSome = true) :=
  ⟨by decide, store_validated_iff_ground_truth opsC3 exC3res (by decide)⟩

/-- C4: `calculateAccuracy` of the empty list is `0` (not
undefined/NaN); appending an example passing the critical-field match
never decreases the percentage, and appending one failing it never
increases it, the rest of the list held fixed. -/
theorem calculateAccuracy_monotone :
    calculateAccuracy [] = 0 ∧
    (∀ (l : List TrainingExample) (ex : TrainingExample),
        isCorrectExample ex = true →
        calculateAccuracy l ≤ calculateAccuracy (l ++ [ex])) ∧
    (∀ (l : List TrainingExample) (ex : TrainingExample),
        isCorrectExample ex = false →
        calculateAccuracy (l ++ [ex]) ≤ calculateAccuracy l) := by
  refine ⟨rfl, ?_, ?_⟩
  · intro l ex hc
    rcases l with _ | ⟨a, l'⟩
    · rw [show ([] : List TrainingExample) ++ [ex] = [ex] from rfl,
        calculateAccuracy_singleton, if_pos hc]
      norm_num [calculateAccuracy]
    · rw [calculateAccuracy_cons (a :: l') (by simp),
        calculateAccuracy_cons ((a :: l') ++ [ex]) (by simp)]
      apply roundTo_mono
      have hcn : ((a :: l') ++ [ex]).countP isCorrectExample =
          (a :: l').countP isCorrectExample + 1 := by
        simp [List.countP_append, List.countP_cons, hc]
        omega
      have hln : ((a :: l') ++ [ex]).length = (a :: l').length + 1 := by
        simp
      rw [hcn, hln]
      push_cast
      have hc_le : ((a :: l').countP isCorrectExample : ℚ) ≤
          ((a :: l').length : ℚ) := by
        exact_mod_cast List.countP_le_length isCorrectExample
      have hn_pos : (0 : ℚ) < ((a :: l').length : ℚ) := by
        exact_mod_cast Nat.succ_pos l'.length
      apply mul_le_mul_of_nonneg_right _ (by norm_num : (0 : ℚ) ≤ 100)
      rw [div_le_div_iff₀ hn_pos (by linarith)]
      nlinarith
  · intro l ex hc
    rcases l with _ | ⟨a, l'⟩
    · rw [show ([] : List TrainingExample) ++ [ex] = [ex] from rfl,
        calculateAccuracy_singleton]
      simp only [hc, Bool.false_eq_true, if_false]
      norm_num [calculateAccuracy]
    · rw [calculateAccuracy_cons (a :: l') (by simp),
        calculateAccuracy_cons ((a :: l') ++ [ex]) (by simp)]
      apply roundTo_mono
      have hcn : ((a :: l') ++ [ex]).countP isCorrectExample =
          (a :: l').countP isCorrectExample := by
        simp [List.countP_append, List.countP_cons, hc]
      have hln : ((a :: l') ++ [ex]).length = (a :: l').length + 1 := by
        simp
      rw [hcn, hln]
      push_cast
      have hc_pos : (0 : ℚ) ≤ ((a :: l').countP isCorrectExample : ℚ) := by
        positivity
      have hn_pos : (0 : ℚ) < ((a :: l').length : ℚ) := by
        exact_mod_cast Nat.succ_pos l'.length
      apply mul_le_mul_of_nonneg_right _ (by norm_num : (0 : ℚ) ≤ 100)
      rw [div_le_div_iff₀ (by linarith) hn_pos]
      nlinarith

/-- C4 witness: the monotonicity theorem applied at a concrete correct
and a concrete incorrect example. -/
theorem calculateAccuracy_monotone_witness :
    calculateAccuracy [] ≤ calculateAccuracy ([] ++ [exC4ok]) ∧
      calculateAccuracy ([exC4ok] ++ [exC4bad]) ≤ calculateAccuracy [exC4ok] :=
  ⟨calculateAccuracy_monotone.2.1 [] exC4ok (by decide),
   calculateAccuracy_monotone.2.2 [exC4ok] exC4bad (by decide)⟩

/-- C5 counterexample: `exC5` mismatches its ground truth only on `bil`,
so it enters the failing set (`analyzeFailures` gates on `bil` too), yet
`identifyFailurePatterns` emits **no** tag — there is no pattern tag for
the `bil` field — refuting the claimed "empty iff no field mismatch". -/
theorem identifyFailurePatterns_misses_bil :
    analyzeFailures [exC5] ≠ [] ∧
    exC5.gemini_extraction.tender.bil ≠ some (JSVal.vnum tW1.bil) ∧
    exC5.manual_validation = some tW1 ∧
    identifyFailurePatterns (analyzeFailures [exC5]) = [] := by
  refine ⟨by decide, by decide, by decide, by decide⟩

/-- C5 (amended): `identifyFailurePatterns` returns the empty tag set
iff no input entry is flagged on `kod_bidang`, `status`, `bidang`,
`keterangan` or `tarikh` — a mismatch on `bil` alone yields no tag (and
entries built by `analyzeFailures` never flag `keterangan`). -/
theorem identifyFailurePatterns_eq_nil_iff (failures : List FailureEntry) :
    identifyFailurePatterns failures = [] ↔
      ∀ f ∈ failures, f.field_mismatches.kod_bidang = false ∧
        f.field_mismatches.status = false ∧ f.field_mismatches.bidang = false ∧
        f.field_mismatches.keterangan = false ∧
        f.field_mismatches.tarikh = false := by
  unfold identifyFailurePatterns
  rw [foldl_applyMismatchTags_eq_nil]
  simp

/-- C5 witness: the amended theorem applied to a concrete entry with no
tag-producing mismatch. -/
theorem identifyFailurePatterns_eq_nil_iff_witness :
    identifyFailurePatterns [clearFailureEntry] = [] :=
  (identifyFailurePatterns_eq_nil_iff [clearFailureEntry]).mpr (by decide)

set_option maxRecDepth 10000 in
/-- C7: the prompt refiner is a deterministic function of the
failure-pattern tag set — re-invoking it with the same tags yields a
character-identical instruction document — and each present tag
contributes its targeted corrective clause to the base instruction set
exactly once (absent tags contribute it zero times). -/
theorem generateImprovedPrompt_idempotent :
    (∀ f1 f2 : List FailureEntry,
        identifyFailurePatterns f1 = identifyFailurePatterns f2 →
        generateImprovedPrompt f1 = generateImprovedPrompt f2) ∧
    (∀ fs : List FailureEntry,
        ((generateImprovedPromptPieces fs).count codeFormatClause =
          if "code_format" ∈ identifyFailurePatterns fs then 1 else 0) ∧
        ((generateImprovedPromptPieces fs).count statusFormatClause =
          if "status_format" ∈ identifyFailurePatterns fs then 1 else 0) ∧
        ((generateImprovedPromptPieces fs).count textContentClause =
          if "text_content" ∈ identifyFailurePatterns fs then 1 else 0) ∧
        ((generateImprovedPromptPieces fs).count dateFormatClause =
          if "date_format" ∈ identifyFailurePatterns fs then 1 else 0)) := by
  constructor
  · intro f1 f2 h
    simp only [generateImprovedPrompt, generateImprovedPromptPieces]
    rw [h]
  · intro fs
    by_cases h1 : "code_format" ∈ identifyFailurePatterns fs <;>
    by_cases h2 : "status_format" ∈ identifyFailurePatterns fs <;>
    by_cases h3 : "text_content" ∈ identifyFailurePatterns fs <;>
    by_cases h4 : "date_format" ∈ identifyFailurePatterns fs <;>
      refine ⟨?_, ?_, ?_, ?_⟩ <;>
      simp only [generateImprovedPromptPieces, h1, h2, h3, h4, if_true,
        if_false, ite_true, ite_false] <;>
      decide

/-- C7 witness: the determinism half applied to two different concrete
failing sets carrying the same tag set. -/
theorem generateImprovedPrompt_idempotent_witness :
    generateImprovedPrompt failuresC7a = generateImprovedPrompt failuresC7b :=
  generateImprovedPrompt_idempotent.1 failuresC7a failuresC7b (by decide)

/-- C8: `parseGeminiResponse` degrades to the empty result instead of
throwing: a response with no `[...]` slice, a slice the JSON parser
rejects, or one parsing to a non-array value each produce `[]` (and the
Lean model is total, as the source's enclosing `try/catch` makes it). -/
theorem parseGeminiResponse_degrades (parse : String → JsonParseOutcome)
    (responseText : String) :
    (jsonArraySlice responseText.data = none →
      parseGeminiResponse parse responseText = []) ∧
    (∀ slice, jsonArraySlice responseText.data = some slice →
      parse (String.mk slice) = JsonParseOutcome.failure →
      parseGeminiResponse parse responseText = []) ∧
    (∀ slice, jsonArraySlice responseText.data = some slice →
      parse (String.mk slice) = JsonParseOutcome.nonArray →
      parseGeminiResponse parse responseText = []) := by
  refine ⟨?_, ?_, ?_⟩
  · intro h
    simp [parseGeminiResponse, h]
  · intro slice h hp
    simp [parseGeminiResponse, h, hp]
  · intro slice h hp
    simp [parseGeminiResponse, h, hp]

/-- C8 witness: the degradation theorem applied to three concrete
responses — no array slice, a parser failure, and a non-array parse. -/
theorem parseGeminiResponse_degrades_witness :
    parseGeminiResponse (fun _ => JsonParseOutcome.failure) "no json here" = [] ∧
    parseGeminiResponse (fun _ => JsonParseOutcome.failure) "[1]" = [] ∧
    parseGeminiResponse (fun _ => JsonParseOutcome.nonArray) "[1]" = [] :=
  ⟨(parseGeminiResponse_degrades _ _).1 (by decide),
   (parseGeminiResponse_degrades _ _).2.1 ("[1]".data) (by decide) rfl,
   (parseGeminiResponse_degrades _ _).2.2 ("[1]".data) (by decide) rfl⟩

end TenderMY
